import Mathlib

/-!
Verification of the GlucoVision glucose analytics engine against its
natural-language specification.  The embedded code is
`backend/app/services/ai_service.py` (class `GlucoseAIService`) together
with the risk-score computation of the `/risk-assessment` route in
`backend/app/api/v1/ai_insights.py`.

Modelling conventions:
* Python floats are modelled as exact rationals.  Glucose values are
  finite numbers (database invariant), so every arithmetic step of the
  engine is exact rational arithmetic; the only places where a float
  computation can leave the finite range are divisions (NaN from `0/0`,
  the pandas `std` of fewer than two values) and `sqrt` of a negative
  number.  Each such place is annotated at its definition, and the
  finiteness claims are settled over a dedicated `Option`-valued domain
  (`OQ` below) in which a division by zero yields `none`.
* A dataframe row is the structure `Reading`; the derived time features
  `hour` and `day_of_week` produced by `_logs_to_dataframe` are carried
  as fields (the claims never relate them back to the raw timestamp).
* The k-means body of `_identify_patterns` and the isolation-forest body
  of `_ml_anomaly_detection` run inside `try`/`except` blocks whose
  failures are environmental (library failures).  Their outcomes are
  therefore passed as `Except Unit …` oracle parameters; the surrounding
  control flow, including the `except` arms, is embedded faithfully.
-/

namespace GlucoVision

/-- Reading type enumeration `ReadingTypeEnum` from
`app/models/glucose_log.py`. -/
inductive ReadingType where
  | fasting
  | before_meal
  | after_meal
  | bedtime
  | random
  | exercise
  | sick
  | stress
  | other
deriving DecidableEq

/-- Meal type enumeration `MealTypeEnum` from `app/models/glucose_log.py`. -/
inductive MealType where
  | breakfast
  | lunch
  | dinner
  | snack
  | other
deriving DecidableEq

/-- One row of the dataframe built by `_logs_to_dataframe`: the glucose
value, the timestamp (as a sortable key), the derived time features and
the contextual enums.  The `notes`/`has_notes` columns are never read by
any analysis component and are omitted. -/
structure Reading where
  glucose_value : ℚ
  time : ℕ
  hour : Fin 24
  day_of_week : Fin 7
  reading_type : ReadingType
  meal_type : Option MealType
deriving DecidableEq

/-- Weekend flag derived by `_logs_to_dataframe`:
`log.reading_time.weekday() >= 5`. -/
def Reading.is_weekend (r : Reading) : Bool :=
  decide (5 ≤ r.day_of_week.val)

/-- The slice of the user profile read by the engine. -/
structure UserProfile where
  target_range_min : Option ℚ
  target_range_max : Option ℚ
deriving DecidableEq

/-- Python `user.target_range_min or 80`: both `None` and `0` are falsy
and fall back to the default. -/
def effectiveTargetMin (u : UserProfile) : ℚ :=
  match u.target_range_min with
  | none => 80
  | some x => if x = 0 then 80 else x

/-- Python `user.target_range_max or 180`. -/
def effectiveTargetMax (u : UserProfile) : ℚ :=
  match u.target_range_max with
  | none => 180
  | some x => if x = 0 then 180 else x

/-- Stable insertion into a list sorted ascending by timestamp. -/
def insertByTime (r : Reading) : List Reading → List Reading
  | [] => [r]
  | x :: xs => if r.time < x.time then r :: x :: xs else x :: insertByTime r xs

/-- The `df.sort_values(reading_time)` step of `_logs_to_dataframe` and
`_analyze_trends`: sort ascending by timestamp. -/
def sortByTime : List Reading → List Reading
  | [] => []
  | r :: rs => insertByTime r (sortByTime rs)

/-- The `glucose_value` column of a dataframe. -/
def glucoseValues (logs : List Reading) : List ℚ :=
  logs.map Reading.glucose_value

/-- Mean of a series.  For the empty series the float computation gives
NaN which every consumer sanitises to 0; rational division by zero also
gives 0, so the two agree. -/
def listMean (l : List ℚ) : ℚ :=
  l.sum / l.length

/-- Minimum of a series; 0 for the empty series (where pandas gives NaN
and `_safe_float` turns it into the default 0). -/
def listMin : List ℚ → ℚ
  | [] => 0
  | x :: xs => xs.foldl min x

/-- Maximum of a series; 0 for the empty series. -/
def listMax : List ℚ → ℚ
  | [] => 0
  | x :: xs => xs.foldl max x

/-- Sample variance, the square of the pandas `std()` (which uses
`ddof = 1`).  For a series of length at most 1 the float `std` is NaN;
the rational value is then 0, and every consumer of `std` below guards
that case exactly where the Python code checks `isnan`. -/
def sampleVar (l : List ℚ) : ℚ :=
  (l.map fun v => (v - listMean l) ^ 2).sum / ((l.length : ℚ) - 1)

/-- Population variance (`ddof = 0`), used by the `StandardScaler`. -/
def popVar (l : List ℚ) : ℚ :=
  (l.map fun v => (v - listMean l) ^ 2).sum / (l.length : ℚ)

/-- Rounding to `d` decimal places, the effect of Python `round(x, d)`.
Python rounds ties to even on the underlying binary float; no stated
property touches a tie, so round-half-up is used. -/
def roundTo (d : ℕ) (x : ℚ) : ℚ :=
  (round (x * 10 ^ d) : ℚ) / 10 ^ d

/-- Overview section produced by `_calculate_overview_stats`.  The code
reports `glucose_variability = round(std, 1)` and
`coefficient_variation = round(std / mean * 100, 1)`; those two values
are irrational square roots, so the record carries their squares (no
claim constrains them beyond finiteness, which is settled separately in
the `OQ` domain). -/
structure Overview where
  total_readings : ℕ
  average_glucose : ℚ
  min_glucose : ℚ
  max_glucose : ℚ
  glucose_variability_sq : ℚ
  coefficient_variation_sq : ℚ
  time_in_range : ℚ
  readings_in_range : ℕ
  readings_below_range : ℕ
  readings_above_range : ℕ
deriving DecidableEq

/-- Embedding of `_calculate_overview_stats`.  Range classification is
inclusive on both ends for in-range and strict for below/above, exactly
as in the pandas comparisons. -/
def calculate_overview_stats (logs : List Reading) (u : UserProfile) : Overview :=
  let vs := glucoseValues logs
  let tmin := effectiveTargetMin u
  let tmax := effectiveTargetMax u
  let inR := vs.countP fun v => decide (tmin ≤ v ∧ v ≤ tmax)
  let below := vs.countP fun v => decide (v < tmin)
  let above := vs.countP fun v => decide (tmax < v)
  { total_readings := logs.length
    average_glucose := roundTo 1 (listMean vs)
    min_glucose := listMin vs
    max_glucose := listMax vs
    glucose_variability_sq := sampleVar vs
    coefficient_variation_sq :=
      if 0 < listMean vs ∧ 2 ≤ vs.length then 10000 * sampleVar vs / (listMean vs) ^ 2
      else 0
    time_in_range := roundTo 1 ((inR : ℚ) / (vs.length : ℚ) * 100)
    readings_in_range := inR
    readings_below_range := below
    readings_above_range := above }

/-- Chronological rank indices 0, 1, …, n-1 used as the regression
feature by `_analyze_trends`. -/
def idxList (n : ℕ) : List ℚ :=
  (List.range n).map Nat.cast

/-- Pairwise product sum of two columns. -/
def dotProd (xs ys : List ℚ) : ℚ :=
  (List.zipWith (· * ·) xs ys).sum

/-- Numerator of the closed-form least-squares slope over
(index, value) pairs. -/
def slopeNum (vs : List ℚ) : ℚ :=
  (vs.length : ℚ) * dotProd (idxList vs.length) vs - (idxList vs.length).sum * vs.sum

/-- Denominator of the closed-form least-squares slope; it equals
`n^2 * (n^2 - 1) / 12` and is positive for `n ≥ 2`, so the float
division performed by the regression never produces NaN in the
`n ≥ 3` branch that uses it. -/
def slopeDen (n : ℕ) : ℚ :=
  (n : ℚ) * dotProd (idxList n) (idxList n) - (idxList n).sum ^ 2

/-- The ordinary least-squares slope fitted by
`LinearRegression().fit(X, y)` with `X = arange(n)`. -/
def olsSlope (vs : List ℚ) : ℚ :=
  slopeNum vs / slopeDen vs.length

/-- The fitted intercept: `mean y - slope * mean x`. -/
def olsIntercept (vs : List ℚ) : ℚ :=
  listMean vs - olsSlope vs * listMean (idxList vs.length)

/-- Point prediction of the fitted line at index `k`
(`model.predict([[k]])`). -/
def olsPredict (vs : List ℚ) (k : ℚ) : ℚ :=
  olsIntercept vs + olsSlope vs * k

/-- Total sum of squares of the fitted series. -/
def ssTot (vs : List ℚ) : ℚ :=
  (vs.map fun v => (v - listMean vs) ^ 2).sum

/-- Residual sum of squares of the least-squares fit. -/
def ssRes (vs : List ℚ) : ℚ :=
  (List.zipWith (fun i v => (v - olsPredict vs i) ^ 2) (idxList vs.length) vs).sum

/-- Coefficient of determination returned by `model.score`: scikit-learn
defines the degenerate constant-series case (`ss_tot = 0`) as 1.0 when
the residuals are also zero and 0.0 otherwise. -/
def rSquared (vs : List ℚ) : ℚ :=
  if ssTot vs = 0 then (if ssRes vs = 0 then 1 else 0)
  else 1 - ssRes vs / ssTot vs

/-- Prediction block produced by `_generate_glucose_predictions`. -/
structure Predictions where
  next_reading_prediction : ℚ
  short_term_predictions : List ℚ
  confidence_score : ℚ
  prediction_reliability : String
deriving DecidableEq

/-- Full trend section for the `len(df) ≥ 3` branch of
`_analyze_trends`. -/
structure TrendsData where
  trend : String
  direction : String
  slope : ℚ
  r_squared : ℚ
  recent_change : ℚ
  trend_strength : String
  predictions : Predictions
deriving DecidableEq

/-- Trend section: either the `insufficient_data` dictionary returned for
fewer than 3 readings or the fully computed one. -/
inductive Trends where
  | insufficientData
  | computed (t : TrendsData)
deriving DecidableEq

/-- The `trend` entry of the trends dictionary. -/
def Trends.trend : Trends → String
  | .insufficientData => "insufficient_data"
  | .computed t => t.trend

/-- Embedding of `_analyze_trends` (including the prediction block).
Classification runs on the raw slope; the reported slope is rounded to
3 decimals by `_safe_round`. -/
def analyze_trends (logs : List Reading) : Trends :=
  if logs.length < 3 then .insufficientData
  else
    let n := logs.length
    let vs := glucoseValues (sortByTime logs)
    let s := olsSlope vs
    let r2 := rSquared vs
    let recent :=
      if 7 < n then listMean (vs.drop (n - 7)) - listMean (vs.take (n - 7)) else 0
    .computed
      { trend :=
          if |s| < 1 / 2 then "stable" else if 0 < s then "increasing" else "decreasing"
        direction :=
          if |s| < 1 / 2 then "stable" else if 0 < s then "upward" else "downward"
        slope := roundTo 3 s
        r_squared := roundTo 3 r2
        recent_change := roundTo 1 recent
        trend_strength :=
          if 7 / 10 < r2 then "strong" else if 2 / 5 < r2 then "moderate" else "weak"
        predictions :=
          { next_reading_prediction := roundTo 1 (olsPredict vs n)
            short_term_predictions :=
              [roundTo 1 (olsPredict vs n), roundTo 1 (olsPredict vs (n + 1)),
                roundTo 1 (olsPredict vs (n + 2))]
            confidence_score := roundTo 3 r2
            prediction_reliability :=
              if 7 / 10 < r2 then "high" else if 2 / 5 < r2 then "moderate" else "low" } }

/-- Statistics reported for one k-means cluster by `_identify_patterns`
(the values are computed inside the oracled `try` body, see
`identify_patterns`). -/
structure ClusterStats where
  avg_glucose : ℚ
  common_time : ℕ
  common_reading_type : String
  weekend_frequency : ℚ
  pattern_frequency : ℕ
  description : String
deriving DecidableEq

/-- Python `max(keys, key=frequency)`: the first key attaining the
maximal `pattern_frequency`, in dictionary insertion order. -/
def dominantPattern (ca : List (String × ClusterStats)) : String :=
  match ca with
  | [] => ""
  | x :: xs =>
    (xs.foldl (fun best p =>
      if best.2.pattern_frequency < p.2.pattern_frequency then p else best) x).1

/-- The `ml_clusters` slot of the patterns dictionary: absent below 10
readings, the error marker dictionary when the clustering body raised,
or the computed cluster analysis with its dominant pattern. -/
inductive MlClusters where
  | notComputed
  | failed
  | ok (analysis : List (String × ClusterStats)) (dominant : String)
deriving DecidableEq

/-- Mean glucose per hour bucket, in ascending hour order (the pandas
`groupby` sorts its keys); hours with no readings have no entry. -/
def hourlyAverages (logs : List Reading) : List (ℕ × ℚ) :=
  (List.range 24).filterMap fun h =>
    let g := logs.filter fun r => decide (r.hour.val = h)
    if g = [] then none else some (h, listMean (glucoseValues g))

/-- Mean glucose per day-of-week bucket, in ascending order. -/
def dailyAverages (logs : List Reading) : List (ℕ × ℚ) :=
  (List.range 7).filterMap fun d =>
    let g := logs.filter fun r => decide (r.day_of_week.val = d)
    if g = [] then none else some (d, listMean (glucoseValues g))

/-- Pandas `idxmax`: the first key (in index order) attaining the
maximal value.  The default is unreachable for a nonempty dataframe. -/
def idxmaxKey (l : List (ℕ × ℚ)) : ℕ :=
  match l with
  | [] => 0
  | x :: xs => (xs.foldl (fun best p => if best.2 < p.2 then p else best) x).1

/-- Pandas `idxmin`: the first key attaining the minimal value. -/
def idxminKey (l : List (ℕ × ℚ)) : ℕ :=
  match l with
  | [] => 0
  | x :: xs => (xs.foldl (fun best p => if p.2 < best.2 then p else best) x).1

/-- Patterns section of the analysis. -/
structure Patterns where
  hourly_averages : List (ℕ × ℚ)
  peak_hour : ℕ
  lowest_hour : ℕ
  daily_averages : List (ℕ × ℚ)
  weekend_avg : ℚ
  weekday_avg : ℚ
  ml_clusters : MlClusters
deriving DecidableEq

/-- Embedding of `_identify_patterns`.  The deterministic layer is
computed directly; the k-means body inside the `try` block is supplied
as an oracle `oc` (its failures are environmental), and the `except`
arm that replaces the result with the error marker is the `.failed`
case.  `max` over an empty cluster analysis raises inside the `try`
block, hence also maps to `.failed`; the weekend/weekday means of an
empty selection are NaN in pandas and sanitised to 0 by `_safe_round`,
which rational division by zero reproduces. -/
def identify_patterns (logs : List Reading)
    (oc : Except Unit (List (String × ClusterStats))) : Patterns :=
  { hourly_averages := hourlyAverages logs
    peak_hour := idxmaxKey (hourlyAverages logs)
    lowest_hour := idxminKey (hourlyAverages logs)
    daily_averages := dailyAverages logs
    weekend_avg := roundTo 1 (listMean (glucoseValues (logs.filter fun r => r.is_weekend)))
    weekday_avg := roundTo 1 (listMean (glucoseValues (logs.filter fun r => !r.is_weekend)))
    ml_clusters :=
      if logs.length < 10 then .notComputed
      else
        match oc with
        | .error _ => .failed
        | .ok ca => if ca = [] then .failed else .ok ca (dominantPattern ca) }

/-- Result dictionary of a successful `_ml_anomaly_detection` run
(computed inside the oracled `try` body). -/
structure MlAnomalyInfo where
  ml_anomaly_count : ℕ
  ml_anomaly_percentage : ℚ
  anomalous_glucose_values : List ℚ
deriving DecidableEq

/-- The `ml_anomaly_detection` slot: the insufficient-data marker below
10 readings, the error marker when the isolation-forest body raised, or
the computed result. -/
inductive MlAnomaly where
  | insufficientData
  | failed
  | ok (info : MlAnomalyInfo)
deriving DecidableEq

/-- Statistical anomaly test of `_detect_anomalies`: the code flags
`v > mean + 2*std` or `v < mean - 2*std` (both strict).  Over the reals
this is `|v - mean| > 2*std`, which for the nonnegative variance is
equivalent to the rational comparison `(v - mean)^2 > 4*var`; the
equivalence is proved below over ℝ.  For a single reading the float
thresholds are NaN and nothing is flagged; here `var = 0` and the sole
reading equals the mean, so nothing is flagged either. -/
def isStatAnomaly (vs : List ℚ) (v : ℚ) : Bool :=
  decide (4 * sampleVar vs < (v - listMean vs) ^ 2)

/-- Anomaly section of the analysis.  The code also reports
`anomaly_threshold_high/low = round(mean ± 2*std, 1)`; those are
irrational and no claim constrains them (their finiteness is settled in
the `OQ` domain), so they are not carried here. -/
structure AnomalyDetection where
  anomaly_count : ℕ
  anomaly_percentage : ℚ
  severe_highs : ℕ
  severe_lows : ℕ
  ml_anomaly_detection : MlAnomaly
deriving DecidableEq

/-- Embedding of `_detect_anomalies` and the control flow of
`_ml_anomaly_detection` (whose isolation-forest body is the oracle
`om`). -/
def detect_anomalies (logs : List Reading) (om : Except Unit MlAnomalyInfo) :
    AnomalyDetection :=
  let vs := glucoseValues logs
  { anomaly_count := vs.countP (isStatAnomaly vs)
    anomaly_percentage :=
      if 0 < vs.length then roundTo 1 ((vs.countP (isStatAnomaly vs) : ℚ) / (vs.length : ℚ) * 100)
      else 0
    severe_highs := vs.countP fun v => decide (300 < v)
    severe_lows := vs.countP fun v => decide (v < 50)
    ml_anomaly_detection :=
      if logs.length < 10 then .insufficientData
      else
        match om with
        | .error _ => .failed
        | .ok info => .ok info }

/-- One recommendation record.  The `message` strings interpolate
floating-point values and carry no analysed content; the remaining
fields are embedded. -/
structure Recommendation where
  rec_type : String
  priority : String
  title : String
  action : String
deriving DecidableEq

/-- The coefficient-of-variation trigger of `_generate_recommendations`:
`cv > 30` with `cv = std / mean * 100`, computed only when the mean is
positive and `std` is not NaN (at least two readings); squared to stay
rational. -/
def highVariabilityB (vs : List ℚ) : Bool :=
  decide (0 < listMean vs ∧ 2 ≤ vs.length ∧ 900 * (listMean vs) ^ 2 < 10000 * sampleVar vs)

/-- Embedding of `_generate_recommendations`. -/
def generate_recommendations (logs : List Reading) : List Recommendation :=
  let vs := glucoseValues logs
  let avg := listMean vs
  (if highVariabilityB vs then
    [{ rec_type := "glucose_control", priority := "high",
       title := "High Glucose Variability", action := "improve_consistency" }]
   else []) ++
  (if 180 < avg then
    [{ rec_type := "glucose_control", priority := "high",
       title := "Elevated Average Glucose", action := "consult_doctor" }]
   else if avg < 70 then
    [{ rec_type := "glucose_control", priority := "high",
       title := "Low Average Glucose", action := "monitor_closely" }]
   else
    [{ rec_type := "glucose_control", priority := "normal",
       title := "Good Glucose Control", action := "continue_monitoring" }])

/-- Risk section produced by `_assess_risk_factors`. -/
structure RiskAssessment where
  level : String
  factors : List String
  message : String
deriving DecidableEq

/-- Embedding of `_assess_risk_factors`: the level is derived from the
mean glucose alone (thresholds 200 and 150); the factor list collects
the mean-level text and the counts of readings above 250 and below
70. -/
def assess_risk_factors (logs : List Reading) : RiskAssessment :=
  let vs := glucoseValues logs
  let avg := listMean vs
  let highs := vs.countP fun v => decide (250 < v)
  let lows := vs.countP fun v => decide (v < 70)
  { level := if 200 < avg then "high" else if 150 < avg then "moderate" else "low"
    factors :=
      (if 200 < avg then ["Consistently elevated glucose levels"]
       else if 150 < avg then ["Moderately elevated glucose levels"]
       else []) ++
      (if 0 < highs then [toString highs ++ " severe hyperglycemic episodes"] else []) ++
      (if 0 < lows then [toString lows ++ " hypoglycemic episodes"] else [])
    message := "Risk assessment based on " ++ toString logs.length ++ " readings" }

/-- Time-pattern section of `_analyze_time_patterns`.  `none` in the
averages models the JSON `null` the code returns for an empty hour
selection. -/
structure TimeAnalysis where
  dawn_phenomenon_detected : Bool
  morning_average : Option ℚ
  evening_average : Option ℚ
deriving DecidableEq

/-- Embedding of `_analyze_time_patterns`: morning readings are taken
with `hour.between(6, 9)` and night readings with `hour.between(22, 24)`
(both inclusive). -/
def analyze_time_patterns (logs : List Reading) : TimeAnalysis :=
  let morning := glucoseValues (logs.filter fun r => decide (6 ≤ r.hour.val ∧ r.hour.val ≤ 9))
  let night := glucoseValues (logs.filter fun r => decide (22 ≤ r.hour.val ∧ r.hour.val ≤ 24))
  { dawn_phenomenon_detected :=
      if morning ≠ [] ∧ night ≠ [] then decide (listMean night + 20 < listMean morning)
      else false
    morning_average := if morning = [] then none else some (roundTo 1 (listMean morning))
    evening_average := if night = [] then none else some (roundTo 1 (listMean night)) }

/-- Meal-correlation section of `_analyze_meal_correlation`. -/
inductive MealCorrelation where
  | insufficientMealData
  | ok (meal_averages : List (MealType × ℚ)) (highest_meal_impact : Option MealType)
deriving DecidableEq

/-- Meal types in the lexicographic order of their string values, the
order in which the pandas `groupby` presents its keys. -/
def mealOrder : List MealType :=
  [.breakfast, .dinner, .lunch, .other, .snack]

/-- Python `max(dict, key=dict.get)` over the meal averages: the first
key (in dictionary order) attaining the maximal mean. -/
def argmaxMeal (l : List (MealType × ℚ)) : Option MealType :=
  match l with
  | [] => none
  | x :: xs => some (xs.foldl (fun best p => if best.2 < p.2 then p else best) x).1

/-- Embedding of `_analyze_meal_correlation`. -/
def analyze_meal_correlation (logs : List Reading) : MealCorrelation :=
  let withMeal := logs.filter fun r => r.meal_type.isSome
  if withMeal = [] then .insufficientMealData
  else
    let avgs := mealOrder.filterMap fun m =>
      let g := withMeal.filter fun r => r.meal_type = some m
      if g = [] then none else some (m, listMean (glucoseValues g))
    .ok avgs (argmaxMeal avgs)

/-- The constant marker dictionaries hard-coded for the
`exercise_impact` and `medication_effectiveness` sections. -/
structure Marker where
  insufficient_data : Bool
  message : String
deriving DecidableEq

/-- The complete analysis dictionary assembled by
`analyze_glucose_patterns` on the `len(logs) ≥ 4` path. -/
structure Analysis where
  overview : Overview
  trends : Trends
  patterns : Patterns
  recommendations : List Recommendation
  risk_assessment : RiskAssessment
  time_analysis : TimeAnalysis
  meal_correlation : MealCorrelation
  exercise_impact : Marker
  medication_effectiveness : Marker
  anomaly_detection : AnomalyDetection
deriving DecidableEq

/-- The full-analysis path of `analyze_glucose_patterns`: every section
is a function of the sorted dataframe and the user profile; the
`exercise_impact` and `medication_effectiveness` entries are literal
constants. -/
def fullAnalysis (u : UserProfile) (logs : List Reading)
    (oc : Except Unit (List (String × ClusterStats)))
    (om : Except Unit MlAnomalyInfo) : Analysis :=
  let df := sortByTime logs
  { overview := calculate_overview_stats df u
    trends := analyze_trends df
    patterns := identify_patterns df oc
    recommendations := generate_recommendations df
    risk_assessment := assess_risk_factors df
    time_analysis := analyze_time_patterns df
    meal_correlation := analyze_meal_correlation df
    exercise_impact := { insufficient_data := true, message := "Exercise tracking not available" }
    medication_effectiveness :=
      { insufficient_data := true, message := "Medication tracking not available" }
    anomaly_detection := detect_anomalies df om }

/-- The zeroed overview inside `_insufficient_data_response`. -/
structure InsufficientOverview where
  total_readings : ℕ
  average_glucose : ℚ
  time_in_range : ℚ
deriving DecidableEq

/-- The canonical insufficient-data dictionary shape. -/
structure InsufficientResponse where
  status : String
  message : String
  overview : InsufficientOverview
  trends_trend : String
  patterns : List String
  recommendations : List Recommendation
deriving DecidableEq

/-- Embedding of `_insufficient_data_response` (a constant). -/
def insufficient_data_response : InsufficientResponse :=
  { status := "insufficient_data"
    message := "Not enough glucose readings for comprehensive analysis. Please log at least 4 readings."
    overview := { total_readings := 0, average_glucose := 0, time_in_range := 0 }
    trends_trend := "insufficient_data"
    patterns := []
    recommendations :=
      [{ rec_type := "data_collection", priority := "high",
         title := "More Data Needed", action := "log_more_readings" }] }

/-- Overall result of one `analyze_glucose_patterns` call. -/
inductive AnalyzeResult where
  | insufficient (r : InsufficientResponse)
  | ok (a : Analysis)
deriving DecidableEq

/-- State of the shared `self.scaler` (`StandardScaler`): either never
fitted, or holding the per-feature means and population variances of the
batch it was last fitted on. -/
inductive ScalerState where
  | unfitted
  | fitted (params : List (ℚ × ℚ))
deriving DecidableEq

/-- The `reading_type_numeric` feature:
`map({fasting:1, before_meal:2, after_meal:3, bedtime:4, random:5}).fillna(5)`. -/
def readingTypeNumeric : ReadingType → ℚ
  | .fasting => 1
  | .before_meal => 2
  | .after_meal => 3
  | .bedtime => 4
  | .random => 5
  | .exercise => 5
  | .sick => 5
  | .stress => 5
  | .other => 5

/-- The per-column parameters `StandardScaler.fit` stores: mean and
population variance of each feature column. -/
def featureParams (cols : List (List ℚ)) : List (ℚ × ℚ) :=
  cols.map fun c => (listMean c, popVar c)

/-- Feature columns assembled by `_identify_patterns` before scaling:
glucose value, hour, day of week, numeric reading type, weekend flag. -/
def clusterFeatureCols (logs : List Reading) : List (List ℚ) :=
  [glucoseValues logs,
   logs.map fun r => (r.hour.val : ℚ),
   logs.map fun r => (r.day_of_week.val : ℚ),
   logs.map fun r => readingTypeNumeric r.reading_type,
   logs.map fun r => if r.is_weekend then 1 else 0]

/-- Feature columns assembled by `_ml_anomaly_detection` (no weekend
flag). -/
def mlFeatureCols (logs : List Reading) : List (List ℚ) :=
  [glucoseValues logs,
   logs.map fun r => (r.hour.val : ℚ),
   logs.map fun r => (r.day_of_week.val : ℚ),
   logs.map fun r => readingTypeNumeric r.reading_type]

/-- Embedding of one `analyze_glucose_patterns` invocation on the
service object.  The first component is the returned dictionary; the
second is the `self.scaler` state after the call: with at least 10
readings the scaler is refitted by `scaler.fit_transform` in
`_identify_patterns` and then again in `_ml_anomaly_detection`
(standardisation uses only the current batch, so the incoming state is
never read), below 10 readings the scaler is not touched.  Below 4
readings the call short-circuits to the canonical insufficient-data
constant before any analysis component runs. -/
def serviceAnalyze (s : ScalerState) (u : UserProfile) (logs : List Reading)
    (oc : Except Unit (List (String × ClusterStats)))
    (om : Except Unit MlAnomalyInfo) : AnalyzeResult × ScalerState :=
  if logs.length < 4 then (.insufficient insufficient_data_response, s)
  else
    let df := sortByTime logs
    let s1 := if 10 ≤ logs.length then ScalerState.fitted (featureParams (clusterFeatureCols df)) else s
    let s2 := if 10 ≤ logs.length then ScalerState.fitted (featureParams (mlFeatureCols df)) else s1
    (.ok (fullAnalysis u logs oc om), s2)

/-- String-keyed read access to the dictionary `_assess_risk_factors`
returns, as performed by the `/risk-assessment` route
(`risk_data.get(key)`).  The dictionary has exactly the keys `level`,
`factors` and `message`; `factors` holds a list, and the route never
reads it, so only the string-valued entries are listed. -/
def riskLookup (r : RiskAssessment) (k : String) : Option String :=
  if k = "level" then some r.level
  else if k = "message" then some r.message
  else none

/-- String-keyed read access to the overview dictionary
(`overview.get(key, default)`).  The keys are exactly those built by
`_calculate_overview_stats`; `glucose_variability` and
`coefficient_variation` (irrational square roots) are omitted here
because the route never looks them up. -/
def overviewLookup (o : Overview) (k : String) : Option ℚ :=
  if k = "total_readings" then some o.total_readings
  else if k = "average_glucose" then some o.average_glucose
  else if k = "min_glucose" then some o.min_glucose
  else if k = "max_glucose" then some o.max_glucose
  else if k = "time_in_range" then some o.time_in_range
  else if k = "readings_in_range" then some o.readings_in_range
  else if k = "readings_below_range" then some o.readings_below_range
  else if k = "readings_above_range" then some o.readings_above_range
  else none

/-- Axis contribution in the route: 3 points for `high`, 1 for
`moderate`, otherwise 0. -/
def axisPoints (v : Option String) : ℕ :=
  if v = some "high" then 3 else if v = some "moderate" then 1 else 0

/-- The overall risk score computed by the `/risk-assessment` route in
`ai_insights.py`: three axis contributions read from the keys
`variability_risk`, `hypoglycemia_risk` and `hyperglycemia_risk` of the
risk dictionary, plus 2 points when the value read from the overview
key `time_in_range_percent` (default 100) is below 50, else 1 point
when below 70. -/
def route_risk_score (risk : RiskAssessment) (o : Overview) : ℕ :=
  axisPoints (riskLookup risk ("variability_risk")) +
  axisPoints (riskLookup risk ("hypoglycemia_risk")) +
  axisPoints (riskLookup risk ("hyperglycemia_risk")) +
  (let tir := (overviewLookup o ("time_in_range_percent")).getD 100
   if tir < 50 then 2 else if tir < 70 then 1 else 0)

/-- Overall level thresholds of the route: `high` at score 6 or more,
`moderate` at 3 or more, else `low`. -/
def route_risk_level (score : ℕ) : String :=
  if 6 ≤ score then "high" else if 3 ≤ score then "moderate" else "low"

/-- Modelled from the spec for comparison with the code: the
glycemic-variability axis, `high` when the coefficient of variation
exceeds 36 percent, `moderate` when it exceeds 24 percent, else `low`.
The comparisons are squared to stay rational
(`cv > c` iff `10000 * var > 100 * c^2 * mean^2` for a positive mean). -/
def spec_variability_axis (vs : List ℚ) : String :=
  if 0 < listMean vs ∧ 1296 * (listMean vs) ^ 2 < 10000 * sampleVar vs then "high"
  else if 0 < listMean vs ∧ 576 * (listMean vs) ^ 2 < 10000 * sampleVar vs then "moderate"
  else "low"

/-- Modelled from the spec for comparison with the code: a per-axis
level for an episode count.  The spec fixes no cutoffs for the count
axes; zero episodes must map to `low`, and the comparison below only
exercises that forced case. -/
def spec_count_axis (c : ℕ) : String :=
  if 3 ≤ c then "high" else if 1 ≤ c then "moderate" else "low"

/-- Points per axis level as documented: 3 per `high`, 1 per
`moderate`. -/
def spec_axis_points (lvl : String) : ℕ :=
  if lvl = "high" then 3 else if lvl = "moderate" then 1 else 0

/-- Modelled from the spec for comparison with the code: the documented
weighted overall score — axis points for variability, hypoglycemia
(readings below 70) and hyperglycemia (readings above 250), plus 2
extra points when time-in-range is below 50 percent, else 1 when below
70 percent. -/
def spec_risk_score (logs : List Reading) (u : UserProfile) : ℕ :=
  let vs := glucoseValues logs
  let tir := ((vs.countP fun v =>
    decide (effectiveTargetMin u ≤ v ∧ v ≤ effectiveTargetMax u)) : ℚ) / (vs.length : ℚ) * 100
  spec_axis_points (spec_variability_axis vs) +
  spec_axis_points (spec_count_axis (vs.countP fun v => decide (v < 70))) +
  spec_axis_points (spec_count_axis (vs.countP fun v => decide (250 < v))) +
  (if tir < 50 then 2 else if tir < 70 then 1 else 0)

/-- Overall level thresholds as documented: `high` at score 6 or more,
`moderate` at 3 or more, else `low`. -/
def spec_overall_level (score : ℕ) : String :=
  if 6 ≤ score then "high" else if 3 ≤ score then "moderate" else "low"

/-- A reading with the given value, timestamp and hour, used for the
concrete test inputs below. -/
def mkReading (v : ℚ) (t : ℕ) (h : Fin 24) : Reading :=
  { glucose_value := v, time := t, hour := h, day_of_week := 2,
    reading_type := .fasting, meal_type := none }

/-- A user profile with no stored target range, so the defaults 80 and
180 apply. -/
def defaultUser : UserProfile :=
  { target_range_min := none, target_range_max := none }

/-- Concrete scenario 1 of the spec: readings 90, 95, 100, 105, evenly
spaced in time. -/
def scenario1Logs : List Reading :=
  [mkReading 90 0 8, mkReading 95 1 8, mkReading 100 2 8, mkReading 105 3 8]

/-- Three readings only, below the 4-reading gate. -/
def threeLogs : List Reading :=
  [mkReading 90 0 8, mkReading 95 1 8, mkReading 100 2 8]

/-- Readings 75, 75, 200, 200 with target range 80 to 180: every
reading is out of range (time-in-range 0 percent) and the coefficient
of variation is about 52 percent, yet no reading is below 70 or above
250, so each documented count axis is at its forced `low` level. -/
def riskDemoLogs : List Reading :=
  [mkReading 75 0 8, mkReading 75 1 8, mkReading 200 2 8, mkReading 200 3 8]

/-- Ten readings, enough for the clustering and multivariate branches. -/
def tenLogs : List Reading :=
  [mkReading 90 0 6, mkReading 95 1 8, mkReading 100 2 10, mkReading 105 3 12,
   mkReading 110 4 14, mkReading 115 5 16, mkReading 120 6 18, mkReading 125 7 20,
   mkReading 130 8 22, mkReading 135 9 23]

/-- A sample successful cluster analysis used as oracle output in the
concrete instantiations. -/
def demoClusterAnalysis : List (String × ClusterStats) :=
  [("pattern_0",
    { avg_glucose := 100, common_time := 8, common_reading_type := "fasting",
      weekend_frequency := 0, pattern_frequency := 6, description := "optimal glucose" }),
   ("pattern_1",
    { avg_glucose := 130, common_time := 20, common_reading_type := "fasting",
      weekend_frequency := 0, pattern_frequency := 4, description := "moderate glucose" })]

/-- A sample successful multivariate anomaly result used as oracle
output in the concrete instantiations. -/
def demoMlInfo : MlAnomalyInfo :=
  { ml_anomaly_count := 1, ml_anomaly_percentage := 10, anomalous_glucose_values := [135] }

/-- Finiteness domain for the NaN/Infinity claims: `none` models a
non-finite float (NaN or ±Infinity).  All inputs are finite, so a
non-finite value can only enter through a division by zero or the
square root of a negative number; sums and products of finite values
stay finite (glucose values are small, far from float overflow). -/
abbrev OQ := Option ℚ

/-- Addition in the finiteness domain. -/
def oadd (x y : OQ) : OQ :=
  x.bind fun a => y.map fun b => a + b

/-- Subtraction in the finiteness domain. -/
def osub (x y : OQ) : OQ :=
  x.bind fun a => y.map fun b => a - b

/-- Multiplication in the finiteness domain. -/
def omul (x y : OQ) : OQ :=
  x.bind fun a => y.map fun b => a * b

/-- Division in the finiteness domain: division by zero is the NaN
case. -/
def odiv (x y : OQ) : OQ :=
  x.bind fun a => y.bind fun b => if b = 0 then none else some (a / b)

/-- Series mean: NaN exactly for the empty series. -/
def omeanO (l : List ℚ) : OQ :=
  if l.length = 0 then none else some (listMean l)

/-- Sample variance (pandas `std` squared, `ddof = 1`): NaN for fewer
than two values. -/
def ovarO (l : List ℚ) : OQ :=
  if l.length ≤ 1 then none else some (sampleVar l)

/-- Float square root tracked for finiteness only: finite nonnegative
input gives a finite output, negative or non-finite input gives NaN.
The carried rational is the radicand — the true value is irrational,
and only finiteness of these fields is claimed. -/
def osqrtFin (x : OQ) : OQ :=
  x.bind fun q => if q < 0 then none else some q

/-- Series minimum: NaN for the empty series. -/
def ominO (l : List ℚ) : OQ :=
  if l = [] then none else some (listMin l)

/-- Series maximum: NaN for the empty series. -/
def omaxO (l : List ℚ) : OQ :=
  if l = [] then none else some (listMax l)

/-- The `_safe_round` sanitiser: a non-finite value becomes the default
0.0, then the result is rounded — the output is always finite. -/
def osafeRound (d : ℕ) (x : OQ) : ℚ :=
  roundTo d (x.getD 0)

/-- The `_safe_float` sanitiser. -/
def osafeFloat (x : OQ) : ℚ :=
  x.getD 0

/-- The numeric fields of the overview section with the sanitisers
placed exactly where `_calculate_overview_stats` applies them; the
output type ℚ records that every overview field is sanitised (counts
are integers).  The `cv` guard mirrors the code: `avg > 0` is false for
NaN, `isnan(std)` is the `ovarO` none case, and the final
`isnan(cv) or isinf(cv)` recheck is the `getD 0`. -/
def overviewNumerics (logs : List Reading) (u : UserProfile) : List ℚ :=
  let vs := glucoseValues logs
  let avg := omeanO vs
  let std := osqrtFin (ovarO vs)
  let cv : OQ :=
    if 0 < osafeFloat avg ∧ std.isSome then
      some (osafeFloat (omul (odiv std avg) (some 100)))
    else some 0
  let inR := vs.countP fun v =>
    decide (effectiveTargetMin u ≤ v ∧ v ≤ effectiveTargetMax u)
  [(logs.length : ℚ),
   osafeRound 1 avg,
   osafeFloat (ominO vs),
   osafeFloat (omaxO vs),
   osafeRound 1 std,
   osafeRound 1 cv,
   osafeRound 1 (omul (odiv (some (inR : ℚ)) (some (vs.length : ℚ))) (some 100)),
   (inR : ℚ),
   ((vs.countP fun v => decide (v < effectiveTargetMin u)) : ℚ),
   ((vs.countP fun v => decide (effectiveTargetMax u < v)) : ℚ)]

/-- The numeric fields of the trends section (including predictions)
with the sanitisers placed exactly where `_analyze_trends` and
`_generate_glucose_predictions` apply them.  The raw regression
quantities are formed in the finiteness domain; every reported field
passes through `_safe_round`. -/
def trendsNumerics (logs : List Reading) : List ℚ :=
  if logs.length < 3 then [0]
  else
    let n := logs.length
    let vs := glucoseValues (sortByTime logs)
    let slopeO := odiv (some (slopeNum vs)) (some (slopeDen vs.length))
    let r2O : OQ :=
      if ssTot vs = 0 then some (if ssRes vs = 0 then 1 else 0)
      else osub (some 1) (odiv (some (ssRes vs)) (some (ssTot vs)))
    let interceptO := osub (omeanO vs) (omul slopeO (omeanO (idxList vs.length)))
    let predO := fun (k : ℚ) => oadd interceptO (omul slopeO (some k))
    let recentO : OQ :=
      if 7 < n then osub (omeanO (vs.drop (n - 7))) (omeanO (vs.take (n - 7)))
      else some 0
    [osafeRound 3 slopeO,
     osafeRound 3 r2O,
     osafeRound 1 recentO,
     osafeRound 1 (predO n),
     osafeRound 1 (predO (n + 1)),
     osafeRound 1 (predO (n + 2)),
     osafeRound 3 r2O]

/-- The numeric fields of the deterministic patterns layer: hourly and
daily bucket means pass through `_safe_float`, the weekend/weekday
means through `_safe_round` (an empty selection gives NaN, sanitised to
0). -/
def patternsNumerics (logs : List Reading) : List ℚ :=
  ((List.range 24).filterMap fun h =>
    let g := logs.filter fun r => decide (r.hour.val = h)
    if g = [] then none else some (osafeFloat (omeanO (glucoseValues g)))) ++
  ((List.range 7).filterMap fun d =>
    let g := logs.filter fun r => decide (r.day_of_week.val = d)
    if g = [] then none else some (osafeFloat (omeanO (glucoseValues g)))) ++
  [osafeRound 1 (omeanO (glucoseValues (logs.filter fun r => r.is_weekend))),
   osafeRound 1 (omeanO (glucoseValues (logs.filter fun r => !r.is_weekend)))]

/-- The numeric fields of `_analyze_time_patterns`: each average is
emitted only for a nonempty selection and passes through
`_safe_round`. -/
def timeNumerics (logs : List Reading) : List ℚ :=
  let morning := glucoseValues (logs.filter fun r => decide (6 ≤ r.hour.val ∧ r.hour.val ≤ 9))
  let night := glucoseValues (logs.filter fun r => decide (22 ≤ r.hour.val ∧ r.hour.val ≤ 24))
  (if morning = [] then [] else [osafeRound 1 (omeanO morning)]) ++
  (if night = [] then [] else [osafeRound 1 (omeanO night)])

/-- The numeric fields of `_analyze_meal_correlation`: the per-meal
means are the one numeric output of the engine that is NOT passed
through a sanitiser, so they are kept in the finiteness domain and
their finiteness is proved (each group is nonempty by
construction). -/
def mealNumerics (logs : List Reading) : List OQ :=
  let withMeal := logs.filter fun r => r.meal_type.isSome
  if withMeal = [] then []
  else
    mealOrder.filterMap fun m =>
      let g := withMeal.filter fun r => r.meal_type = some m
      if g = [] then none else some (omeanO (glucoseValues g))

/-- The numeric fields of the statistical anomaly layer: counts are
integers, the percentage is guarded by the length check and sanitised,
and the two thresholds `mean ± 2*std` pass through `_safe_round`. -/
def anomalyNumerics (logs : List Reading) : List ℚ :=
  let vs := glucoseValues logs
  let meanO := omeanO vs
  let stdO := osqrtFin (ovarO vs)
  [((vs.countP (isStatAnomaly vs)) : ℚ),
   (if 0 < vs.length then
      osafeRound 1 (omul (odiv (some ((vs.countP (isStatAnomaly vs)) : ℚ))
        (some (vs.length : ℚ))) (some 100))
    else 0),
   ((vs.countP fun v => decide (300 < v)) : ℚ),
   ((vs.countP fun v => decide (v < 50)) : ℚ),
   osafeRound 1 (oadd meanO (omul (some 2) stdO)),
   osafeRound 1 (osub meanO (omul (some 2) stdO))]

/-- Every numeric field of one analysis invocation, in the finiteness
domain.  Fields produced by a sanitiser (or as integer counts) are
plain rationals injected by `some`; the unsanitised meal averages stay
in `OQ`.  Below 4 readings the numeric fields are the three zeroed
constants of `_insufficient_data_response`.  The cluster and
isolation-forest statistics are computed by the oracled library bodies,
whose numeric outputs the code passes through `_safe_round` again. -/
def analysisNumerics (logs : List Reading) (u : UserProfile) : List OQ :=
  if logs.length < 4 then [some 0, some 0, some 0]
  else
    let df := sortByTime logs
    (overviewNumerics df u).map some ++
    (trendsNumerics df).map some ++
    (patternsNumerics df).map some ++
    (timeNumerics df).map some ++
    mealNumerics df ++
    (anomalyNumerics df).map some

/-- A raw `GlucoseLog` record as read from the database, including the
per-reading exercise and medication columns that
`_logs_to_dataframe` does not extract. -/
structure RawLog where
  glucose_value : ℚ
  time : ℕ
  hour : Fin 24
  day_of_week : Fin 7
  reading_type : ReadingType
  meal_type : Option MealType
  exercise_duration : Option ℕ
  medication_taken : Bool
deriving DecidableEq

/-- The dataframe row `_logs_to_dataframe` builds from a raw log: the
exercise and medication columns are dropped. -/
def dfRow (l : RawLog) : Reading :=
  { glucose_value := l.glucose_value, time := l.time, hour := l.hour,
    day_of_week := l.day_of_week, reading_type := l.reading_type,
    meal_type := l.meal_type }

/-- Overwrite the two columns that the dataframe conversion drops. -/
def setExerciseMed (e : Option ℕ) (m : Bool) (l : RawLog) : RawLog :=
  { l with exercise_duration := e, medication_taken := m }

/-- One `analyze_glucose_patterns` call on raw logs: dataframe
conversion followed by the analysis pipeline. -/
def serviceAnalyzeRaw (s : ScalerState) (u : UserProfile) (raws : List RawLog)
    (oc : Except Unit (List (String × ClusterStats)))
    (om : Except Unit MlAnomalyInfo) : AnalyzeResult × ScalerState :=
  serviceAnalyze s u (raws.map dfRow) oc om

/-- A raw log with the given value, timestamp, exercise duration and
medication flag. -/
def mkRawLog (v : ℚ) (t : ℕ) (e : Option ℕ) (m : Bool) : RawLog :=
  { glucose_value := v, time := t, hour := 8, day_of_week := 2,
    reading_type := .fasting, meal_type := none,
    exercise_duration := e, medication_taken := m }

/-- Four raw logs carrying nontrivial exercise and medication data. -/
def demoRawLogs : List RawLog :=
  [mkRawLog 90 0 (some 30) true, mkRawLog 95 1 none false,
   mkRawLog 100 2 (some 45) true, mkRawLog 105 3 none true]

/-! Helper lemmas. -/

theorem insertByTime_length (r : Reading) (l : List Reading) :
    (insertByTime r l).length = l.length + 1 := by
  induction l with
  | nil => rfl
  | cons x xs ih =>
    rw [insertByTime]
    split
    · simp
    · simp [ih]

theorem sortByTime_length (l : List Reading) :
    (sortByTime l).length = l.length := by
  induction l with
  | nil => rfl
  | cons x xs ih => rw [sortByTime, insertByTime_length, ih, List.length_cons]

/-- The three range predicates used by `_calculate_overview_stats`
partition any series when the target range is nondegenerate. -/
theorem countP_range_partition (l : List ℚ) (a b : ℚ) (hab : a < b) :
    l.countP (fun v => decide (a ≤ v ∧ v ≤ b)) +
      l.countP (fun v => decide (v < a)) +
      l.countP (fun v => decide (b < v)) = l.length := by
  induction l with
  | nil => simp
  | cons x t ih =>
    simp only [List.countP_cons, List.length_cons, decide_eq_true_eq]
    rcases lt_or_le x a with h | h
    · have h1 : ¬ (a ≤ x ∧ x ≤ b) := fun hc => absurd hc.1 (not_le.mpr h)
      have h2 : ¬ b < x := by linarith
      rw [if_neg h1, if_pos h, if_neg h2]
      omega
    · rcases le_or_lt x b with h3 | h3
      · have h4 : ¬ x < a := not_lt.mpr h
        have h5 : ¬ b < x := not_lt.mpr h3
        rw [if_pos ⟨h, h3⟩, if_neg h4, if_neg h5]
        omega
      · have h4 : ¬ x < a := not_lt.mpr h
        have h5 : ¬ (a ≤ x ∧ x ≤ b) := fun hc => absurd hc.2 (not_le.mpr h3)
        rw [if_neg h5, if_neg h4, if_pos h3]
        omega

/-- The sample variance of at least two values is nonnegative, so the
float `std = sqrt(var)` is well-defined (never NaN) there. -/
theorem sampleVar_nonneg (l : List ℚ) (h2 : 2 ≤ l.length) : 0 ≤ sampleVar l := by
  have hnum : 0 ≤ (l.map fun v => (v - listMean l) ^ 2).sum := by
    apply List.sum_nonneg
    intro x hx
    obtain ⟨v, _, rfl⟩ := List.mem_map.mp hx
    positivity
  have hden : (0 : ℚ) ≤ (l.length : ℚ) - 1 := by
    have : (2 : ℚ) ≤ (l.length : ℚ) := by exact_mod_cast h2
    linarith
  exact div_nonneg hnum hden

theorem dotProd_replicate (xs : List ℚ) (c : ℚ) :
    dotProd xs (List.replicate xs.length c) = xs.sum * c := by
  induction xs with
  | nil => simp [dotProd]
  | cons x t ih =>
    rw [List.length_cons, List.replicate_succ]
    simp only [dotProd, List.zipWith_cons_cons, List.sum_cons] at ih ⊢
    rw [ih]
    ring

theorem slopeNum_replicate (n : ℕ) (c : ℚ) :
    slopeNum (List.replicate n c) = 0 := by
  have hl : (List.replicate n c).length = n := List.length_replicate n c
  have hil : (idxList n).length = n := by
    rw [idxList, List.length_map, List.length_range]
  have hd : dotProd (idxList n) (List.replicate n c) = (idxList n).sum * c := by
    have := dotProd_replicate (idxList n) c
    rwa [hil] at this
  rw [slopeNum, hl, hd, List.sum_replicate, nsmul_eq_mul]
  ring

/-- A constant series has least-squares slope 0. -/
theorem olsSlope_replicate (n : ℕ) (c : ℚ) :
    olsSlope (List.replicate n c) = 0 := by
  rw [olsSlope, slopeNum_replicate, zero_div]

theorem idxList_sum (n : ℕ) : (idxList n).sum = (n : ℚ) * ((n : ℚ) - 1) / 2 := by
  induction n with
  | zero => simp [idxList]
  | succ k ih =>
    rw [idxList, List.range_succ, List.map_append, List.sum_append]
    rw [idxList] at ih
    rw [ih]
    simp only [List.map_cons, List.map_nil, List.sum_cons, List.sum_nil]
    push_cast
    ring

theorem idxList_sq_sum (n : ℕ) :
    dotProd (idxList n) (idxList n) =
      (n : ℚ) * ((n : ℚ) - 1) * (2 * (n : ℚ) - 1) / 6 := by
  induction n with
  | zero => simp [idxList, dotProd]
  | succ k ih =>
    rw [idxList, List.range_succ, List.map_append]
    rw [idxList] at ih
    rw [dotProd, List.zipWith_append _ _ _ _ _ rfl, List.sum_append]
    rw [dotProd] at ih
    rw [ih]
    simp only [List.map_cons, List.map_nil, List.zipWith_cons_cons, List.zipWith_nil,
      List.sum_cons, List.sum_nil]
    push_cast
    ring

/-- The least-squares denominator equals `n^2 * (n^2 - 1) / 12` and is
positive for at least two points, so the float division in the
regression of `_analyze_trends` (taken for `n ≥ 3`) never produces
NaN and the rational `olsSlope` agrees with the float computation. -/
theorem slopeDen_pos (n : ℕ) (h2 : 2 ≤ n) : 0 < slopeDen n := by
  have hval : slopeDen n = (n : ℚ) ^ 2 * ((n : ℚ) ^ 2 - 1) / 12 := by
    rw [slopeDen, idxList_sq_sum, idxList_sum]
    ring
  have hn : (2 : ℚ) ≤ (n : ℚ) := by exact_mod_cast h2
  rw [hval]
  have h1 : (0 : ℚ) < (n : ℚ) ^ 2 := by nlinarith
  have h2q : (0 : ℚ) < (n : ℚ) ^ 2 - 1 := by nlinarith
  positivity

/-- Bridge between the rational anomaly test and the float test of
`_detect_anomalies`: for a nonnegative variance, being flagged is
exactly lying strictly more than two standard deviations from the
mean. -/
theorem isStatAnomaly_iff_real (vs : List ℚ) (hvar : 0 ≤ sampleVar vs) (v : ℚ) :
    isStatAnomaly vs v = true ↔
      2 * Real.sqrt ((sampleVar vs : ℝ)) < |(v : ℝ) - ((listMean vs : ℚ) : ℝ)| := by
  have hvarR : (0 : ℝ) ≤ ((sampleVar vs : ℚ) : ℝ) := by exact_mod_cast hvar
  have hsq2 : (2 : ℝ) * Real.sqrt ((sampleVar vs : ℚ) : ℝ) =
      Real.sqrt (4 * ((sampleVar vs : ℚ) : ℝ)) := by
    rw [Real.sqrt_mul (by norm_num : (0 : ℝ) ≤ 4)]
    rw [show (4 : ℝ) = 2 ^ 2 by norm_num, Real.sqrt_sq (by norm_num : (0 : ℝ) ≤ 2)]
  rw [isStatAnomaly, decide_eq_true_eq, hsq2]
  rcases eq_or_lt_of_le (abs_nonneg ((v : ℝ) - ((listMean vs : ℚ) : ℝ))) with h0 | h0
  · constructor
    · intro h
      exfalso
      have hx : ((v : ℝ) - ((listMean vs : ℚ) : ℝ)) = 0 := abs_eq_zero.mp h0.symm
      have hvq : ((v - listMean vs : ℚ) : ℝ) = 0 := by push_cast; linarith
      have : (v - listMean vs : ℚ) = 0 := by exact_mod_cast hvq
      rw [this] at h
      nlinarith
    · intro h
      exfalso
      have := Real.sqrt_nonneg (4 * ((sampleVar vs : ℚ) : ℝ))
      linarith [h0.symm ▸ h]
  · rw [Real.sqrt_lt' h0, sq_abs]
    constructor
    · intro h
      have : ((4 * sampleVar vs : ℚ) : ℝ) < (((v - listMean vs) ^ 2 : ℚ) : ℝ) := by
        exact_mod_cast h
      push_cast at this ⊢
      linarith
    · intro h
      have hc : ((4 * sampleVar vs : ℚ) : ℝ) < (((v - listMean vs) ^ 2 : ℚ) : ℝ) := by
        push_cast
        push_cast at h
        linarith
      exact_mod_cast hc

/-! Claim theorems. -/

/-- C2, counterexample: on the spec scenario readings 90, 95, 100, 105
the fitted slope is 5 per index step, so `_analyze_trends` classifies
the trend as `increasing`, not `stable` as the claim states. -/
theorem scenario1_trend_not_stable :
    (analyze_trends scenario1Logs).trend = "increasing" ∧
    ¬ (analyze_trends scenario1Logs).trend = "stable" := by
  have h : (analyze_trends scenario1Logs).trend = "increasing" := by
    norm_num [analyze_trends, scenario1Logs, mkReading, sortByTime, insertByTime,
      glucoseValues, olsSlope, slopeNum, slopeDen, idxList, dotProd, listMean,
      List.range_succ, Trends.trend]
  refine ⟨h, ?_⟩
  rw [h]
  decide

/-- C2, amended: for readings 90, 95, 100, 105 (evenly spaced, target
80 to 180) the overview reports mean 97.5 (= 195/2), min 90, max 105
and time-in-range 100 percent, and the trend is classified
`increasing` (slope 5). -/
theorem scenario1_analysis :
    (calculate_overview_stats scenario1Logs defaultUser).average_glucose = 195 / 2 ∧
    (calculate_overview_stats scenario1Logs defaultUser).min_glucose = 90 ∧
    (calculate_overview_stats scenario1Logs defaultUser).max_glucose = 105 ∧
    (calculate_overview_stats scenario1Logs defaultUser).time_in_range = 100 ∧
    (calculate_overview_stats scenario1Logs defaultUser).total_readings = 4 ∧
    (analyze_trends scenario1Logs).trend = "increasing" := by
  refine ⟨?_, ?_, ?_, ?_, ?_, ?_⟩ <;>
    norm_num [calculate_overview_stats, analyze_trends, scenario1Logs, mkReading,
      defaultUser, effectiveTargetMin, effectiveTargetMax, glucoseValues, listMean,
      listMin, listMax, roundTo, sortByTime, insertByTime, olsSlope, slopeNum,
      slopeDen, idxList, dotProd, List.range_succ, Trends.trend]

/-- C5: with fewer than 4 readings `analyze_glucose_patterns` returns
the canonical constant of `_insufficient_data_response` — zeroed
overview, trend `insufficient_data`, empty patterns and exactly one
collect-more-data recommendation — without invoking any analysis
component (the early return precedes the dataframe conversion). -/
theorem insufficient_data_shortcircuit (s : ScalerState) (u : UserProfile)
    (logs : List Reading) (oc : Except Unit (List (String × ClusterStats)))
    (om : Except Unit MlAnomalyInfo) (h : logs.length < 4) :
    (serviceAnalyze s u logs oc om).1 = .insufficient insufficient_data_response ∧
    insufficient_data_response.overview =
      { total_readings := 0, average_glucose := 0, time_in_range := 0 } ∧
    insufficient_data_response.trends_trend = "insufficient_data" ∧
    insufficient_data_response.patterns = [] ∧
    insufficient_data_response.recommendations.length = 1 ∧
    insufficient_data_response.recommendations =
      [{ rec_type := "data_collection", priority := "high",
         title := "More Data Needed", action := "log_more_readings" }] := by
  refine ⟨?_, rfl, rfl, rfl, rfl, rfl⟩
  rw [serviceAnalyze, if_pos h]

theorem insufficient_data_shortcircuit_witness :
    threeLogs.length < 4 ∧
    ((serviceAnalyze .unfitted defaultUser threeLogs (.error ()) (.error ())).1 =
        .insufficient insufficient_data_response ∧
      insufficient_data_response.overview =
        { total_readings := 0, average_glucose := 0, time_in_range := 0 } ∧
      insufficient_data_response.trends_trend = "insufficient_data" ∧
      insufficient_data_response.patterns = [] ∧
      insufficient_data_response.recommendations.length = 1 ∧
      insufficient_data_response.recommendations =
        [{ rec_type := "data_collection", priority := "high",
           title := "More Data Needed", action := "log_more_readings" }]) :=
  ⟨by decide,
   insufficient_data_shortcircuit .unfitted defaultUser threeLogs (.error ()) (.error ())
     (by decide)⟩

/-- C9, counterexample: a call with 10 readings refits the shared
`self.scaler`, so the service state observable by the next call is NOT
unchanged — starting from a never-fitted scaler, the state after the
call is a fitted one. -/
theorem scaler_state_mutated_by_call :
    (serviceAnalyze .unfitted defaultUser tenLogs (.ok demoClusterAnalysis)
        (.ok demoMlInfo)).2 =
      ScalerState.fitted (featureParams (mlFeatureCols (sortByTime tenLogs))) ∧
    ¬ (serviceAnalyze .unfitted defaultUser tenLogs (.ok demoClusterAnalysis)
        (.ok demoMlInfo)).2 = ScalerState.unfitted := by
  have hlen4 : ¬ tenLogs.length < 4 := by decide
  have hlen10 : 10 ≤ tenLogs.length := by decide
  have hstate : (serviceAnalyze .unfitted defaultUser tenLogs (.ok demoClusterAnalysis)
      (.ok demoMlInfo)).2 =
      ScalerState.fitted (featureParams (mlFeatureCols (sortByTime tenLogs))) := by
    simp [serviceAnalyze, hlen4, hlen10]
  refine ⟨hstate, ?_⟩
  rw [hstate]
  exact fun hc => ScalerState.noConfusion hc

/-- C9, amended: although a call with at least 10 readings refits the
shared scaler (mutating service state), the returned analysis is
independent of the incoming scaler state — `fit_transform`
standardises with the statistics of the current batch only — so the
result of a call does not depend on earlier calls. -/
theorem analysis_result_state_independent (s1 s2 : ScalerState) (u : UserProfile)
    (logs : List Reading) (oc : Except Unit (List (String × ClusterStats)))
    (om : Except Unit MlAnomalyInfo) :
    (serviceAnalyze s1 u logs oc om).1 = (serviceAnalyze s2 u logs oc om).1 := by
  by_cases h : logs.length < 4 <;> simp [serviceAnalyze, h]

/-- C10: changing the per-reading exercise and medication columns does
not change the analysis (the dataframe conversion drops them), and on
the full-analysis path the `exercise_impact` and
`medication_effectiveness` sections are the hard-coded
insufficient-data markers. -/
theorem exercise_medication_sections_constant (s : ScalerState) (u : UserProfile)
    (raws : List RawLog) (e : Option ℕ) (m : Bool)
    (oc : Except Unit (List (String × ClusterStats)))
    (om : Except Unit MlAnomalyInfo) (h4 : 4 ≤ raws.length) :
    serviceAnalyzeRaw s u (raws.map (setExerciseMed e m)) oc om =
      serviceAnalyzeRaw s u raws oc om ∧
    (serviceAnalyzeRaw s u raws oc om).1 =
      .ok (fullAnalysis u (raws.map dfRow) oc om) ∧
    (fullAnalysis u (raws.map dfRow) oc om).exercise_impact =
      { insufficient_data := true, message := "Exercise tracking not available" } ∧
    (fullAnalysis u (raws.map dfRow) oc om).medication_effectiveness =
      { insufficient_data := true, message := "Medication tracking not available" } := by
  have hmap : (raws.map (setExerciseMed e m)).map dfRow = raws.map dfRow := by
    rw [List.map_map]
    exact List.map_congr_left fun a _ => rfl
  have hn : ¬ (raws.map dfRow).length < 4 := by
    rw [List.length_map]
    omega
  refine ⟨?_, ?_, rfl, rfl⟩
  · rw [serviceAnalyzeRaw, serviceAnalyzeRaw, hmap]
  · rw [serviceAnalyzeRaw, serviceAnalyze, if_neg hn]

theorem exercise_medication_sections_constant_witness :
    4 ≤ demoRawLogs.length ∧
    (serviceAnalyzeRaw .unfitted defaultUser (demoRawLogs.map (setExerciseMed none false))
        (.error ()) (.error ()) =
      serviceAnalyzeRaw .unfitted defaultUser demoRawLogs (.error ()) (.error ()) ∧
    (serviceAnalyzeRaw .unfitted defaultUser demoRawLogs (.error ()) (.error ())).1 =
      .ok (fullAnalysis defaultUser (demoRawLogs.map dfRow) (.error ()) (.error ())) ∧
    (fullAnalysis defaultUser (demoRawLogs.map dfRow) (.error ()) (.error ())).exercise_impact =
      { insufficient_data := true, message := "Exercise tracking not available" } ∧
    (fullAnalysis defaultUser (demoRawLogs.map dfRow) (.error ())
        (.error ())).medication_effectiveness =
      { insufficient_data := true, message := "Medication tracking not available" }) :=
  ⟨by decide,
   exercise_medication_sections_constant .unfitted defaultUser demoRawLogs none false
     (.error ()) (.error ()) (by decide)⟩

/-- C3: with at least 4 readings and a nondegenerate target range, the
three range counts of the overview partition the readings, and the
percentages derived from the counts sum exactly to 100. -/
theorem overview_range_partition (logs : List Reading) (u : UserProfile)
    (h4 : 4 ≤ logs.length) (hr : effectiveTargetMin u < effectiveTargetMax u) :
    (calculate_overview_stats logs u).readings_in_range +
      (calculate_overview_stats logs u).readings_below_range +
      (calculate_overview_stats logs u).readings_above_range =
      (calculate_overview_stats logs u).total_readings ∧
    ((calculate_overview_stats logs u).readings_in_range : ℚ) /
        ((calculate_overview_stats logs u).total_readings : ℚ) * 100 +
      ((calculate_overview_stats logs u).readings_below_range : ℚ) /
        ((calculate_overview_stats logs u).total_readings : ℚ) * 100 +
      ((calculate_overview_stats logs u).readings_above_range : ℚ) /
        ((calculate_overview_stats logs u).total_readings : ℚ) * 100 = 100 := by
  have hlen : (glucoseValues logs).length = logs.length := by
    rw [glucoseValues, List.length_map]
  have hsum := countP_range_partition (glucoseValues logs)
    (effectiveTargetMin u) (effectiveTargetMax u) hr
  rw [hlen] at hsum
  constructor
  · simp only [calculate_overview_stats]
    exact hsum
  · have hn : ((logs.length : ℚ)) ≠ 0 := by
      have : 0 < logs.length := by omega
      exact_mod_cast Nat.pos_iff_ne_zero.mp this
    simp only [calculate_overview_stats]
    have hq : (((glucoseValues logs).countP fun v =>
          decide (effectiveTargetMin u ≤ v ∧ v ≤ effectiveTargetMax u)) : ℚ) +
        (((glucoseValues logs).countP fun v => decide (v < effectiveTargetMin u)) : ℚ) +
        (((glucoseValues logs).countP fun v => decide (effectiveTargetMax u < v)) : ℚ) =
        (logs.length : ℚ) := by
      exact_mod_cast hsum
    field_simp
    simp only [Bool.decide_and] at hq
    linarith

theorem overview_range_partition_witness :
    4 ≤ scenario1Logs.length ∧
    effectiveTargetMin defaultUser < effectiveTargetMax defaultUser ∧
    ((calculate_overview_stats scenario1Logs defaultUser).readings_in_range +
        (calculate_overview_stats scenario1Logs defaultUser).readings_below_range +
        (calculate_overview_stats scenario1Logs defaultUser).readings_above_range =
        (calculate_overview_stats scenario1Logs defaultUser).total_readings ∧
      ((calculate_overview_stats scenario1Logs defaultUser).readings_in_range : ℚ) /
          ((calculate_overview_stats scenario1Logs defaultUser).total_readings : ℚ) * 100 +
        ((calculate_overview_stats scenario1Logs defaultUser).readings_below_range : ℚ) /
          ((calculate_overview_stats scenario1Logs defaultUser).total_readings : ℚ) * 100 +
        ((calculate_overview_stats scenario1Logs defaultUser).readings_above_range : ℚ) /
          ((calculate_overview_stats scenario1Logs defaultUser).total_readings : ℚ) * 100 = 100) :=
  ⟨by decide, by norm_num [defaultUser, effectiveTargetMin, effectiveTargetMax],
   overview_range_partition scenario1Logs defaultUser (by decide)
     (by norm_num [defaultUser, effectiveTargetMin, effectiveTargetMax])⟩

/-- C4: with at least 3 readings the trend is `stable` exactly when the
absolute least-squares slope over (chronological index, value) is below
0.5, `increasing` when the slope is at least 0.5 and `decreasing` when
it is at most -0.5; a constant series yields slope 0 and trend
`stable`. -/
theorem trend_classification (logs : List Reading) (h3 : 3 ≤ logs.length) :
    ((analyze_trends logs).trend = "stable" ↔
      |olsSlope (glucoseValues (sortByTime logs))| < 1 / 2) ∧
    (1 / 2 ≤ olsSlope (glucoseValues (sortByTime logs)) →
      (analyze_trends logs).trend = "increasing") ∧
    (olsSlope (glucoseValues (sortByTime logs)) ≤ -(1 / 2) →
      (analyze_trends logs).trend = "decreasing") ∧
    (∀ c : ℚ, glucoseValues (sortByTime logs) = List.replicate logs.length c →
      (analyze_trends logs).trend = "stable") := by
  have hn : ¬ logs.length < 3 := by omega
  have htr : (analyze_trends logs).trend =
      (if |olsSlope (glucoseValues (sortByTime logs))| < 1 / 2 then "stable"
       else if 0 < olsSlope (glucoseValues (sortByTime logs)) then "increasing"
       else "decreasing") := by
    rw [analyze_trends, if_neg hn]
    rfl
  rw [htr]
  refine ⟨?_, ?_, ?_, ?_⟩
  · constructor
    · intro h
      by_contra hlt
      rw [if_neg hlt] at h
      split_ifs at h
      · exact absurd h (by decide)
      · exact absurd h (by decide)
    · intro h
      rw [if_pos h]
  · intro h
    have hpos : (0 : ℚ) < olsSlope (glucoseValues (sortByTime logs)) :=
      lt_of_lt_of_le (by norm_num) h
    have habs : ¬ |olsSlope (glucoseValues (sortByTime logs))| < 1 / 2 :=
      not_lt.mpr (le_trans h (le_abs_self _))
    rw [if_neg habs, if_pos hpos]
  · intro h
    have hneg : ¬ (0 : ℚ) < olsSlope (glucoseValues (sortByTime logs)) :=
      not_lt.mpr (le_trans h (by norm_num))
    have habs : ¬ |olsSlope (glucoseValues (sortByTime logs))| < 1 / 2 := by
      apply not_lt.mpr
      calc (1 : ℚ) / 2 ≤ -(olsSlope (glucoseValues (sortByTime logs))) := by linarith
        _ ≤ |olsSlope (glucoseValues (sortByTime logs))| := neg_le_abs _
    rw [if_neg habs, if_neg hneg]
  · intro c hc
    rw [hc, olsSlope_replicate]
    norm_num

theorem trend_classification_witness :
    3 ≤ scenario1Logs.length ∧
    (((analyze_trends scenario1Logs).trend = "stable" ↔
        |olsSlope (glucoseValues (sortByTime scenario1Logs))| < 1 / 2) ∧
      (1 / 2 ≤ olsSlope (glucoseValues (sortByTime scenario1Logs)) →
        (analyze_trends scenario1Logs).trend = "increasing") ∧
      (olsSlope (glucoseValues (sortByTime scenario1Logs)) ≤ -(1 / 2) →
        (analyze_trends scenario1Logs).trend = "decreasing") ∧
      (∀ c : ℚ, glucoseValues (sortByTime scenario1Logs) =
          List.replicate scenario1Logs.length c →
        (analyze_trends scenario1Logs).trend = "stable")) :=
  ⟨by decide, trend_classification scenario1Logs (by decide)⟩

/-- C6: with at least 4 readings the statistical layer flags exactly
the readings lying strictly more than two (sample) standard deviations
from the mean — `anomaly_count` is the size of that set — and,
independently of the distribution, `severe_highs` counts the readings
above 300 and `severe_lows` those below 50. -/
theorem anomaly_detection_spec (logs : List Reading) (om : Except Unit MlAnomalyInfo)
    (h4 : 4 ≤ logs.length) :
    (detect_anomalies logs om).anomaly_count =
      (glucoseValues logs).countP (isStatAnomaly (glucoseValues logs)) ∧
    (∀ v ∈ glucoseValues logs,
      isStatAnomaly (glucoseValues logs) v = true ↔
        2 * Real.sqrt (((sampleVar (glucoseValues logs) : ℚ) : ℝ)) <
          |(v : ℝ) - ((listMean (glucoseValues logs) : ℚ) : ℝ)|) ∧
    (detect_anomalies logs om).severe_highs =
      (glucoseValues logs).countP (fun v => decide (300 < v)) ∧
    (detect_anomalies logs om).severe_lows =
      (glucoseValues logs).countP (fun v => decide (v < 50)) := by
  have hlen : 2 ≤ (glucoseValues logs).length := by
    rw [glucoseValues, List.length_map]
    omega
  refine ⟨rfl, ?_, rfl, rfl⟩
  intro v _
  exact isStatAnomaly_iff_real _ (sampleVar_nonneg _ hlen) v

theorem anomaly_detection_spec_witness :
    4 ≤ riskDemoLogs.length ∧
    ((detect_anomalies riskDemoLogs (.error ())).anomaly_count =
        (glucoseValues riskDemoLogs).countP (isStatAnomaly (glucoseValues riskDemoLogs)) ∧
      (∀ v ∈ glucoseValues riskDemoLogs,
        isStatAnomaly (glucoseValues riskDemoLogs) v = true ↔
          2 * Real.sqrt (((sampleVar (glucoseValues riskDemoLogs) : ℚ) : ℝ)) <
            |(v : ℝ) - ((listMean (glucoseValues riskDemoLogs) : ℚ) : ℝ)|) ∧
      (detect_anomalies riskDemoLogs (.error ())).severe_highs =
        (glucoseValues riskDemoLogs).countP (fun v => decide (300 < v)) ∧
      (detect_anomalies riskDemoLogs (.error ())).severe_lows =
        (glucoseValues riskDemoLogs).countP (fun v => decide (v < 50))) :=
  ⟨by decide, anomaly_detection_spec riskDemoLogs (.error ()) (by decide)⟩

/-- C1, code bug: the documented weighted score is implemented in the
`/risk-assessment` route, but it reads the axis keys
`variability_risk`, `hypoglycemia_risk` and `hyperglycemia_risk` from
the dictionary of `_assess_risk_factors` (which only has `level`,
`factors`, `message`) and reads `time_in_range_percent` from the
overview (whose key is `time_in_range`), so the score is 0 and the
overall level `low` on every input, while the service level itself is
derived from the mean glucose alone.  On readings 75, 75, 200, 200 the
documented formula gives score 5 (variability axis high, time-in-range
0 percent, both episode-count axes at their forced zero level), hence
level `moderate`, but both code paths report `low`. -/
theorem risk_score_formula_dead :
    (∀ (logs : List Reading) (u : UserProfile),
      route_risk_score (assess_risk_factors logs) (calculate_overview_stats logs u) = 0 ∧
      route_risk_level (route_risk_score (assess_risk_factors logs)
        (calculate_overview_stats logs u)) = "low") ∧
    spec_risk_score riskDemoLogs defaultUser = 5 ∧
    spec_overall_level (spec_risk_score riskDemoLogs defaultUser) = "moderate" ∧
    (assess_risk_factors riskDemoLogs).level = "low" := by
  have hrl : ∀ (r : RiskAssessment) (k : String), k ≠ "level" → k ≠ "message" →
      riskLookup r k = none := by
    intro r k hk1 hk2
    rw [riskLookup, if_neg hk1, if_neg hk2]
  have hov : ∀ o : Overview, overviewLookup o ("time_in_range_percent") = none := by
    intro o
    rw [overviewLookup, if_neg (by decide), if_neg (by decide), if_neg (by decide),
      if_neg (by decide), if_neg (by decide), if_neg (by decide), if_neg (by decide),
      if_neg (by decide)]
  have hscore : ∀ (logs : List Reading) (u : UserProfile),
      route_risk_score (assess_risk_factors logs) (calculate_overview_stats logs u) = 0 := by
    intro logs u
    have hax : axisPoints none = 0 := rfl
    rw [route_risk_score, hrl _ _ (by decide) (by decide), hrl _ _ (by decide) (by decide),
      hrl _ _ (by decide) (by decide), hov]
    simp only [hax, Option.getD_none]
    norm_num
  refine ⟨fun logs u => ⟨hscore logs u, ?_⟩, ?_, ?_, ?_⟩
  · rw [hscore logs u]
    norm_num [route_risk_level]
  · norm_num [spec_risk_score, spec_variability_axis, spec_count_axis, spec_axis_points,
      riskDemoLogs, mkReading, glucoseValues, listMean, sampleVar, defaultUser,
      effectiveTargetMin, effectiveTargetMax]
    decide
  · norm_num [spec_risk_score, spec_variability_axis, spec_count_axis, spec_axis_points,
      riskDemoLogs, mkReading, glucoseValues, listMean, sampleVar, defaultUser,
      effectiveTargetMin, effectiveTargetMax, spec_overall_level]
    decide
  · norm_num [assess_risk_factors, riskDemoLogs, mkReading, glucoseValues, listMean]

/-- C8: replacing the outcome of the clustering body or of the
multivariate anomaly body changes nothing outside their own slots —
overview, trends, the deterministic pattern fields, recommendations,
risk, time analysis, meal correlation and the statistical anomaly
fields are identical for any two outcomes — and a raised outcome is
converted into the explicit error marker of its own sub-section. -/
theorem subanalysis_failure_isolated (u : UserProfile) (logs : List Reading)
    (oc oc' : Except Unit (List (String × ClusterStats)))
    (om om' : Except Unit MlAnomalyInfo) (_h4 : 4 ≤ logs.length) :
    (fullAnalysis u logs oc om).overview = (fullAnalysis u logs oc' om').overview ∧
    (fullAnalysis u logs oc om).trends = (fullAnalysis u logs oc' om').trends ∧
    { (fullAnalysis u logs oc om).patterns with ml_clusters := MlClusters.notComputed } =
      { (fullAnalysis u logs oc' om').patterns with ml_clusters := MlClusters.notComputed } ∧
    (fullAnalysis u logs oc om).recommendations =
      (fullAnalysis u logs oc' om').recommendations ∧
    (fullAnalysis u logs oc om).risk_assessment =
      (fullAnalysis u logs oc' om').risk_assessment ∧
    (fullAnalysis u logs oc om).time_analysis =
      (fullAnalysis u logs oc' om').time_analysis ∧
    (fullAnalysis u logs oc om).meal_correlation =
      (fullAnalysis u logs oc' om').meal_correlation ∧
    { (fullAnalysis u logs oc om).anomaly_detection with
        ml_anomaly_detection := MlAnomaly.insufficientData } =
      { (fullAnalysis u logs oc' om').anomaly_detection with
        ml_anomaly_detection := MlAnomaly.insufficientData } ∧
    (fullAnalysis u logs (Except.error ()) om).patterns.ml_clusters =
      (if logs.length < 10 then MlClusters.notComputed else MlClusters.failed) ∧
    (fullAnalysis u logs oc (Except.error ())).anomaly_detection.ml_anomaly_detection =
      (if logs.length < 10 then MlAnomaly.insufficientData else MlAnomaly.failed) := by
  have hsl : (sortByTime logs).length = logs.length := sortByTime_length logs
  refine ⟨rfl, rfl, rfl, rfl, rfl, rfl, rfl, rfl, ?_, ?_⟩
  · by_cases h10 : logs.length < 10
    · simp [fullAnalysis, identify_patterns, hsl, h10]
    · simp [fullAnalysis, identify_patterns, hsl, h10]
  · by_cases h10 : logs.length < 10
    · simp [fullAnalysis, detect_anomalies, hsl, h10]
    · simp [fullAnalysis, detect_anomalies, hsl, h10]

theorem subanalysis_failure_isolated_witness :
    4 ≤ scenario1Logs.length ∧
    ((fullAnalysis defaultUser scenario1Logs (.ok demoClusterAnalysis) (.ok demoMlInfo)).overview =
        (fullAnalysis defaultUser scenario1Logs (.error ()) (.error ())).overview ∧
      (fullAnalysis defaultUser scenario1Logs (.ok demoClusterAnalysis) (.ok demoMlInfo)).trends =
        (fullAnalysis defaultUser scenario1Logs (.error ()) (.error ())).trends ∧
      { (fullAnalysis defaultUser scenario1Logs (.ok demoClusterAnalysis)
            (.ok demoMlInfo)).patterns with ml_clusters := MlClusters.notComputed } =
        { (fullAnalysis defaultUser scenario1Logs (.error ()) (.error ())).patterns with
            ml_clusters := MlClusters.notComputed } ∧
      (fullAnalysis defaultUser scenario1Logs (.ok demoClusterAnalysis)
          (.ok demoMlInfo)).recommendations =
        (fullAnalysis defaultUser scenario1Logs (.error ()) (.error ())).recommendations ∧
      (fullAnalysis defaultUser scenario1Logs (.ok demoClusterAnalysis)
          (.ok demoMlInfo)).risk_assessment =
        (fullAnalysis defaultUser scenario1Logs (.error ()) (.error ())).risk_assessment ∧
      (fullAnalysis defaultUser scenario1Logs (.ok demoClusterAnalysis)
          (.ok demoMlInfo)).time_analysis =
        (fullAnalysis defaultUser scenario1Logs (.error ()) (.error ())).time_analysis ∧
      (fullAnalysis defaultUser scenario1Logs (.ok demoClusterAnalysis)
          (.ok demoMlInfo)).meal_correlation =
        (fullAnalysis defaultUser scenario1Logs (.error ()) (.error ())).meal_correlation ∧
      { (fullAnalysis defaultUser scenario1Logs (.ok demoClusterAnalysis)
            (.ok demoMlInfo)).anomaly_detection with
          ml_anomaly_detection := MlAnomaly.insufficientData } =
        { (fullAnalysis defaultUser scenario1Logs (.error ()) (.error ())).anomaly_detection with
          ml_anomaly_detection := MlAnomaly.insufficientData } ∧
      (fullAnalysis defaultUser scenario1Logs (Except.error ()) (.ok demoMlInfo)).patterns.ml_clusters =
        (if scenario1Logs.length < 10 then MlClusters.notComputed else MlClusters.failed) ∧
      (fullAnalysis defaultUser scenario1Logs (.ok demoClusterAnalysis)
          (Except.error ())).anomaly_detection.ml_anomaly_detection =
        (if scenario1Logs.length < 10 then MlAnomaly.insufficientData else MlAnomaly.failed)) :=
  ⟨by decide,
   subanalysis_failure_isolated defaultUser scenario1Logs (.ok demoClusterAnalysis) (.error ())
     (.ok demoMlInfo) (.error ()) (by decide)⟩

theorem mealNumerics_isSome (logs : List Reading) :
    ∀ x ∈ mealNumerics logs, x.isSome = true := by
  intro x hx
  simp only [mealNumerics] at hx
  by_cases hw : logs.filter (fun r => r.meal_type.isSome) = []
  · rw [if_pos hw] at hx
    simp at hx
  · rw [if_neg hw] at hx
    rw [List.mem_filterMap] at hx
    obtain ⟨m, _, hfm⟩ := hx
    by_cases hg : (logs.filter fun r => r.meal_type.isSome).filter
        (fun r => r.meal_type = some m) = []
    · rw [if_pos hg] at hfm
      exact absurd hfm (by simp)
    · rw [if_neg hg] at hfm
      have hx2 := Option.some_inj.mp hfm
      subst hx2
      rw [omeanO]
      have hne : (glucoseValues ((logs.filter fun r => r.meal_type.isSome).filter
          (fun r => r.meal_type = some m))).length ≠ 0 := by
        rw [glucoseValues, List.length_map]
        intro hc
        exact hg (List.length_eq_zero.mp hc)
      rw [if_neg hne]
      rfl

/-- C7: in the finiteness domain, every numeric field of the analysis
result is finite: the fields that pass through `_safe_round` or
`_safe_float` are finite by construction of the sanitiser (that is
exactly their purpose on degenerate inputs), integer counts are
finite, and the one unsanitised family of numeric outputs — the raw
per-meal averages — is finite because every meal group is nonempty. -/
theorem analysis_numeric_fields_finite (logs : List Reading) (u : UserProfile) :
    (analysisNumerics logs u).all Option.isSome = true := by
  rw [List.all_eq_true]
  intro x hx
  rw [analysisNumerics] at hx
  by_cases h : logs.length < 4
  · rw [if_pos h] at hx
    simp only [List.mem_cons, List.not_mem_nil, or_false] at hx
    rcases hx with rfl | rfl | rfl <;> rfl
  · rw [if_neg h] at hx
    simp only [List.mem_append] at hx
    rcases hx with ((((h1 | h2) | h3) | h4) | h5) | h6
    · obtain ⟨q, _, rfl⟩ := List.mem_map.mp h1
      rfl
    · obtain ⟨q, _, rfl⟩ := List.mem_map.mp h2
      rfl
    · obtain ⟨q, _, rfl⟩ := List.mem_map.mp h3
      rfl
    · obtain ⟨q, _, rfl⟩ := List.mem_map.mp h4
      rfl
    · exact mealNumerics_isSome _ x h5
    · obtain ⟨q, _, rfl⟩ := List.mem_map.mp h6
      rfl

end GlucoVision
